import Mathlib

/-!
Verification of the CRUCIBLE tool-calling demo (demo_llm.py, demo_tools.py).

Shallow embedding choices:
* JSON values are modelled by the inductive `Json`; numbers are rationals.
* External capabilities are parameters: the model inference engine
  (`llama_cpp` `create_chat_completion`) is a function from a message
  sequence and a tool catalog to an `Except`-wrapped response message, the
  domain function `identify_material` (imported from `tools`, outside this
  core) is a function from three JSON values to an `Except`-wrapped JSON
  result, and the stdlib decoder `json.loads` is a function from strings to
  `Except`-wrapped JSON values.  Python exceptions are `Except.error` with
  the message of `str(e)`.
* Fixed generation parameters (temperature, max_tokens, tool_choice) are
  absorbed into the model oracle; they carry no information per call.
-/

/-- Roles a chat message can carry. -/
inductive Role where
  | system
  | user
  | assistant
  | tool
deriving DecidableEq

/-- JSON values, as produced by `json.loads` and consumed by `json.dumps`. -/
inductive Json where
  | null
  | bool (b : Bool)
  | num (q : ℚ)
  | str (s : String)
  | arr (elems : List Json)
  | obj (fields : List (String × Json))

/-- The `function` field of a tool call: name plus the raw (still-encoded)
argument payload, mirroring the wire schema `tool_call.function`. -/
structure ToolCallFunction where
  name : String
  arguments : String
deriving DecidableEq

/-- A structured call request `tool_call` as returned by the model:
identifier plus function name/arguments. -/
structure ToolCall where
  id : String
  function : ToolCallFunction
deriving DecidableEq

/-- A chat message dict.  Keys absent in a given Python dict are modelled by
`none` (for `content`, `tool_call_id`) and `[]` (for `tool_calls`): the code
only tests `tool_calls` for presence-and-nonemptiness. -/
structure Message where
  role : Role
  content : Option String
  tool_calls : List ToolCall
  tool_call_id : Option String
deriving DecidableEq

/-- Subscripting a JSON value with a string key, as in `arguments["peak_1"]`.
A missing key raises `KeyError` whose `str` is the quoted key; subscripting a
non-object raises `TypeError` (the exact Python message varies with the
value type; no property observed here depends on it). -/
def jsonGet (v : Json) (key : String) : Except String Json :=
  match v with
  | Json.obj fields =>
    match fields.lookup key with
    | some x => Except.ok x
    | none => Except.error ("\x27" ++ key ++ "\x27")
  | _ => Except.error "object is not subscriptable"

/-- The result envelope built by `execute_tool`: the dict
`{"success": ..., "result"/"error": ...}` before `json.dumps` serializes
it. -/
structure ToolResultEnvelope where
  success : Bool
  result : Option Json
  error : Option String

/-- Renders a rational the way our `Json.dumps` prints numbers.  (Python
prints ints and floats natively; the exact digits are immaterial to every
property proved here, only used to build the `tool` message text.) -/
def numToString (q : ℚ) : String :=
  if q.den = 1 then toString q.num else toString q.num ++ "/" ++ toString q.den

mutual

/-- `json.dumps` on a JSON value (string escaping omitted: no property here
inspects the serialized text). -/
def Json.dumps : Json → String
  | Json.null => "null"
  | Json.bool b => if b then "true" else "false"
  | Json.num q => numToString q
  | Json.str s => "\x22" ++ s ++ "\x22"
  | Json.arr elems => "[" ++ dumpsElems elems ++ "]"
  | Json.obj fields => "\x7b" ++ dumpsFields fields ++ "\x7d"

/-- Comma-separated rendering of array elements. -/
def dumpsElems : List Json → String
  | [] => ""
  | [x] => Json.dumps x
  | x :: xs => Json.dumps x ++ ", " ++ dumpsElems xs

/-- Comma-separated rendering of object fields. -/
def dumpsFields : List (String × Json) → String
  | [] => ""
  | [(k, v)] => "\x22" ++ k ++ "\x22: " ++ Json.dumps v
  | (k, v) :: fs => "\x22" ++ k ++ "\x22: " ++ Json.dumps v ++ ", " ++ dumpsFields fs

end

/-- Serialization of the envelope dict exactly as `execute_tool` builds it:
`success` first, then `result` on the success path or `error` on the failure
path. -/
def envelopeDumps (env : ToolResultEnvelope) : String :=
  Json.dumps (Json.obj
    ([("success", Json.bool env.success)]
      ++ (match env.result with | some r => [("result", r)] | none => [])
      ++ (match env.error with | some e => [("error", Json.str e)] | none => [])))

/-- `TOOL_SCHEMA` from demo_tools.py: the single tool descriptor advertised
to the model. -/
def TOOL_SCHEMA : Json :=
  Json.obj
    [("type", Json.str "function"),
     ("function", Json.obj
       [("name", Json.str "identify_material"),
        ("description", Json.str "Identify a material based on its Raman spectroscopy peaks and formation energy. Returns the predicted material name with confidence score."),
        ("parameters", Json.obj
          [("type", Json.str "object"),
           ("properties", Json.obj
             [("peak_1", Json.obj
               [("type", Json.str "number"),
                ("description", Json.str "First Raman peak in wavenumbers (cm^-1). Typically between 100-2000 cm^-1.")]),
              ("peak_2", Json.obj
               [("type", Json.str "number"),
                ("description", Json.str "Second Raman peak in wavenumbers (cm^-1). Typically between 100-2000 cm^-1.")]),
              ("formation_energy", Json.obj
               [("type", Json.str "number"),
                ("description", Json.str "Formation energy in eV per atom. Typically between -15 and 0 eV/atom. Negative values indicate stable compounds.")])]),
           ("required", Json.arr [Json.str "peak_1", Json.str "peak_2", Json.str "formation_energy"])])])]

/-- `execute_tool` from demo_tools.py, returning the envelope dict (the
source then `json.dumps` it; see `envelopeDumps`).  The three subscripts
`arguments["peak_1"]`, `arguments["peak_2"]`, `arguments["formation_energy"]`
are evaluated in that order inside the `try`, then the domain function is
called; the first raised exception is caught and becomes the failed
envelope. -/
def execute_tool (identify_material : Json → Json → Json → Except String Json)
    (tool_name : String) (arguments : Json) : ToolResultEnvelope :=
  if tool_name = "identify_material" then
    match (do
        let p1 ← jsonGet arguments "peak_1"
        let p2 ← jsonGet arguments "peak_2"
        let fe ← jsonGet arguments "formation_energy"
        identify_material p1 p2 fe : Except String Json) with
    | Except.ok result => { success := true, result := some result, error := none }
    | Except.error e => { success := false, result := none, error := some e }
  else
    { success := false, result := none, error := some ("Unknown tool: " ++ tool_name) }

/-- The fallback apology returned when the loop exhausts `max_iterations`
without a final text answer (demo_llm.py line 131). -/
def fallback_response : String :=
  "I apologize, but I had trouble processing that request. Could you rephrase?"

/-- `max_iterations = 3` (demo_llm.py line 75). -/
def max_iterations : Nat := 3

/-- The user message dict appended to history at the top of `chat`. -/
def mkUserMsg (user_message : String) : Message :=
  { role := Role.user, content := some user_message, tool_calls := [], tool_call_id := none }

/-- The system message heading the turn session. -/
def mkSystemMsg (system_prompt : String) : Message :=
  { role := Role.system, content := some system_prompt, tool_calls := [], tool_call_id := none }

/-- The final assistant message committed to history: role assistant,
content as returned by the model (possibly None). -/
def mkAssistantText (c : Option String) : Message :=
  { role := Role.assistant, content := c, tool_calls := [], tool_call_id := none }

/-- The transient assistant message carrying the honored call request:
`{"role": "assistant", "content": None, "tool_calls": [tool_call]}`. -/
def mkAssistantCall (tc : ToolCall) : Message :=
  { role := Role.assistant, content := none, tool_calls := [tc], tool_call_id := none }

/-- The transient tool message carrying the result envelope text, keyed by
the call identifier. -/
def mkToolMsg (call_id : String) (tool_result : String) : Message :=
  { role := Role.tool, content := some tool_result, tool_calls := [], tool_call_id := some call_id }

/-- A model oracle: `create_chat_completion` restricted to its
information-carrying inputs (message sequence and tool catalog).
`Except.error` is a raised model-invocation failure. -/
abbrev ModelOracle := List Message → List Json → Except String Message

/-- The `SimpleCrucible` instance state: the system prompt set in
`__init__` and the mutable conversation history. -/
structure SimpleCrucible where
  system_prompt : String
  history : List Message

/-- The `for iteration in range(max_iterations)` loop body of `chat`,
by the number of iterations left.  Carries the history (`self.history`,
already holding the new user message) and the turn session `messages`;
returns the history as left by the loop together with the outcome:
`Except.error` when `json.loads` or the model invocation raises, otherwise
the returned text.  Falling off the loop returns `fallback_response`. -/
def chatLoop (llm : ModelOracle) (json_loads : String → Except String Json)
    (identify_material : Json → Json → Json → Except String Json) :
    Nat → List Message → List Message → List Message × Except String (Option String)
  | 0, history, _ => (history, Except.ok (some fallback_response))
  | n + 1, history, messages =>
    match llm messages [TOOL_SCHEMA] with
    | Except.error e => (history, Except.error e)
    | Except.ok message =>
      match message.tool_calls with
      | tool_call :: _ =>
        match json_loads tool_call.function.arguments with
        | Except.error e => (history, Except.error e)
        | Except.ok tool_args =>
          let tool_result :=
            envelopeDumps (execute_tool identify_material tool_call.function.name tool_args)
          chatLoop llm json_loads identify_material n history
            (messages ++ [mkAssistantCall tool_call, mkToolMsg tool_call.id tool_result])
      | [] =>
        let assistant_message := message.content
        (history ++ [mkAssistantText assistant_message], Except.ok assistant_message)

/-- `SimpleCrucible.chat`: append the user message to history, seed the turn
session with the system prompt plus history, and run the bounded loop.
Returns the instance state after the call paired with the outcome: the
returned text, or the raised exception (`Except.error`).  The state is
returned even on error because `self.history` was already mutated before the
raise. -/
def chat (llm : ModelOracle) (json_loads : String → Except String Json)
    (identify_material : Json → Json → Json → Except String Json)
    (c : SimpleCrucible) (user_message : String) :
    SimpleCrucible × Except String (Option String) :=
  let history := c.history ++ [mkUserMsg user_message]
  let messages := mkSystemMsg c.system_prompt :: history
  let r := chatLoop llm json_loads identify_material max_iterations history messages
  ({ c with history := r.1 }, r.2)

/-- `SimpleCrucible.reset`: clear the conversation history. -/
def reset (c : SimpleCrucible) : SimpleCrucible :=
  { c with history := [] }

/-- Runs a sequence of turns, each with its own model-oracle behavior and
user text, threading the instance state; the CLI main loop catches raised
exceptions and continues with the mutated state, so `runTurns` keeps the
returned state in every case. -/
def runTurns (json_loads : String → Except String Json)
    (identify_material : Json → Json → Json → Except String Json) :
    List (ModelOracle × String) → SimpleCrucible → SimpleCrucible
  | [], c => c
  | (llm, u) :: rest, c => runTurns json_loads identify_material rest (chat llm json_loads identify_material c u).1

/-- Every turn in the sequence resolves successfully: the loop commits a
final assistant text, growing history by exactly the user and assistant
messages of that turn. -/
def AllResolved (json_loads : String → Except String Json)
    (identify_material : Json → Json → Json → Except String Json) :
    List (ModelOracle × String) → SimpleCrucible → Prop
  | [], _ => True
  | (llm, u) :: rest, c =>
    (∃ t, chat llm json_loads identify_material c u =
      ({ c with history := c.history ++ [mkUserMsg u, mkAssistantText t] }, Except.ok t)) ∧
    AllResolved json_loads identify_material rest (chat llm json_loads identify_material c u).1

/-! ## Helper lemmas and concrete fixtures -/

/-- Sequencing a successful `Except` step. -/
theorem ok_bind {α β : Type} (a : α) (f : α → Except String β) :
    ((Except.ok a : Except String α) >>= f) = f a := rfl

/-- Sequencing a failed `Except` step. -/
theorem error_bind {α β : Type} (e : String) (f : α → Except String β) :
    ((Except.error e : Except String α) >>= f) = Except.error e := rfl

/-- Outcome trichotomy of the loop: a raise leaves the history untouched, a
final text appends exactly one assistant message, and exhaustion leaves the
history untouched and yields the fallback text. -/
theorem chatLoop_cases (llm : ModelOracle) (jl : String → Except String Json)
    (idf : Json → Json → Json → Except String Json) (n : Nat) :
    ∀ history messages : List Message,
      (∃ e, chatLoop llm jl idf n history messages = (history, Except.error e)) ∨
      (∃ t, chatLoop llm jl idf n history messages = (history ++ [mkAssistantText t], Except.ok t)) ∨
      chatLoop llm jl idf n history messages = (history, Except.ok (some fallback_response)) := by
  induction n with
  | zero =>
    intro history messages
    exact Or.inr (Or.inr rfl)
  | succ n ih =>
    intro history messages
    simp only [chatLoop]
    cases hm : llm messages [TOOL_SCHEMA] with
    | error e => exact Or.inl ⟨e, rfl⟩
    | ok message =>
      dsimp only
      cases htc : message.tool_calls with
      | nil => exact Or.inr (Or.inl ⟨message.content, rfl⟩)
      | cons tool_call rest =>
        dsimp only
        cases hjl : jl tool_call.function.arguments with
        | error e => exact Or.inl ⟨e, rfl⟩
        | ok tool_args => exact ih history _

/-- If the model answers every invocation with a call request and every
argument payload decodes, the loop runs out of iterations: history is left
untouched and the fallback text is returned. -/
theorem chatLoop_exhausts (llm : ModelOracle) (jl : String → Except String Json)
    (idf : Json → Json → Json → Except String Json)
    (hllm : ∀ msgs, ∃ m, llm msgs [TOOL_SCHEMA] = Except.ok m ∧ m.tool_calls ≠ [])
    (hjl : ∀ s, ∃ v, jl s = Except.ok v) (n : Nat) :
    ∀ messages history : List Message,
      chatLoop llm jl idf n history messages = (history, Except.ok (some fallback_response)) := by
  induction n with
  | zero =>
    intro messages history
    rfl
  | succ n ih =>
    intro messages history
    obtain ⟨m, hm, hne⟩ := hllm messages
    simp only [chatLoop, hm]
    cases htc : m.tool_calls with
    | nil => exact absurd htc hne
    | cons tool_call rest =>
      obtain ⟨v, hv⟩ := hjl tool_call.function.arguments
      simp only [hv]
      exact ih _ history

/-- A constant domain function used as a concrete stand-in for
`tools.identify_material`. -/
def idfCeria : Json → Json → Json → Except String Json :=
  fun _ _ _ => Except.ok (Json.str "Ceria")

/-- A decoder that accepts every payload as the empty object. -/
def jlEmptyObj : String → Except String Json :=
  fun _ => Except.ok (Json.obj [])

/-- A decoder that rejects every payload the way `json.loads` reports an
invalid document. -/
def jlReject : String → Except String Json :=
  fun _ => Except.error "Expecting value: line 1 column 1 (char 0)"

/-- A concrete call request. -/
def tcall1 : ToolCall :=
  { id := "call_1", function := { name := "identify_material", arguments := "\x7b\x7d" } }

/-- A second, distinct concrete call request. -/
def tcall2 : ToolCall :=
  { id := "call_2", function := { name := "other_tool", arguments := "\x7b\x7d" } }

/-- A model oracle that always answers with a single call request. -/
def llmOneCall : ModelOracle :=
  fun _ _ => Except.ok { role := Role.assistant, content := none, tool_calls := [tcall1], tool_call_id := none }

/-- A model oracle that always answers with two call requests in one
response. -/
def llmTwoCalls : ModelOracle :=
  fun _ _ => Except.ok { role := Role.assistant, content := none, tool_calls := [tcall1, tcall2], tool_call_id := none }

/-- A model oracle that always answers with final text. -/
def llmText : ModelOracle :=
  fun _ _ => Except.ok { role := Role.assistant, content := some "Final answer.", tool_calls := [], tool_call_id := none }

/-- A model oracle whose invocation always raises. -/
def llmDown : ModelOracle :=
  fun _ _ => Except.error "model unreachable"

/-- A fresh instance state with an empty history. -/
def crucible0 : SimpleCrucible :=
  { system_prompt := "prompt", history := [] }

/-- The golden arguments of the reference case: peaks 465 and 610, formation
energy -11.2 = -56/5. -/
def golden_arguments : Json :=
  Json.obj [("peak_1", Json.num 465), ("peak_2", Json.num 610), ("formation_energy", Json.num (-56/5))]

/-- Reduction of `execute_tool` on the known tool name to the try-block. -/
theorem execute_tool_known (idf : Json → Json → Json → Except String Json) (arguments : Json) :
    execute_tool idf "identify_material" arguments =
      (match (jsonGet arguments "peak_1" >>= fun p1 =>
              jsonGet arguments "peak_2" >>= fun p2 =>
              jsonGet arguments "formation_energy" >>= fun fe =>
              idf p1 p2 fe) with
        | Except.ok result => { success := true, result := some result, error := none }
        | Except.error e => { success := false, result := none, error := some e }) := rfl

/-! ## Claim theorems -/

/-- Claim C4: for every tool name other than identify_material,
`execute_tool` returns a failed envelope whose error text is
"Unknown tool: " followed by that name, for every argument value, and never
raises (it is a total function into envelopes). -/
theorem execute_tool_unknown_tool (idf : Json → Json → Json → Except String Json)
    (tool_name : String) (arguments : Json) (h : tool_name ≠ "identify_material") :
    execute_tool idf tool_name arguments =
      { success := false, result := none, error := some ("Unknown tool: " ++ tool_name) } := by
  simp only [execute_tool, if_neg h]

/-- Witness for claim C4 at the concrete unknown name "foo". -/
theorem execute_tool_unknown_tool_witness :
    execute_tool idfCeria "foo" Json.null =
      { success := false, result := none, error := some ("Unknown tool: " ++ "foo") } :=
  execute_tool_unknown_tool idfCeria "foo" Json.null (by decide)

/-- Claim C5: when the arguments routed to identify_material carry peak_1
and peak_2 but no formation_energy key, `execute_tool` returns a failed
envelope whose error text is the KeyError message for the missing key, and
never raises (it is a total function into envelopes). -/
theorem execute_tool_missing_formation_energy (idf : Json → Json → Json → Except String Json)
    (fields : List (String × Json)) (p1 p2 : Json)
    (h1 : fields.lookup "peak_1" = some p1) (h2 : fields.lookup "peak_2" = some p2)
    (h3 : fields.lookup "formation_energy" = none) :
    execute_tool idf "identify_material" (Json.obj fields) =
      { success := false, result := none, error := some "\x27formation_energy\x27" } := by
  rw [execute_tool_known]
  have g1 : jsonGet (Json.obj fields) "peak_1" = Except.ok p1 := by
    simp [jsonGet, h1]
  have g2 : jsonGet (Json.obj fields) "peak_2" = Except.ok p2 := by
    simp [jsonGet, h2]
  have g3 : jsonGet (Json.obj fields) "formation_energy" = Except.error "\x27formation_energy\x27" := by
    simp [jsonGet, h3]
  simp only [g1, g2, g3, ok_bind, error_bind]

/-- Witness for claim C5 at concrete arguments holding only the two peaks. -/
theorem execute_tool_missing_formation_energy_witness :
    execute_tool idfCeria "identify_material"
        (Json.obj [("peak_1", Json.num 465), ("peak_2", Json.num 610)]) =
      { success := false, result := none, error := some "\x27formation_energy\x27" } :=
  execute_tool_missing_formation_energy idfCeria
    [("peak_1", Json.num 465), ("peak_2", Json.num 610)] (Json.num 465) (Json.num 610)
    rfl rfl rfl

/-- Claim C7: on the golden arguments peak_1 = 465, peak_2 = 610,
formation_energy = -11.2 routed to identify_material, if the domain function
succeeds on exactly those inputs with value v, `execute_tool` returns the
succeeded envelope wrapping exactly v. -/
theorem execute_tool_golden (idf : Json → Json → Json → Except String Json) (v : Json)
    (h : idf (Json.num 465) (Json.num 610) (Json.num (-56/5)) = Except.ok v) :
    execute_tool idf "identify_material" golden_arguments =
      { success := true, result := some v, error := none } := by
  rw [execute_tool_known]
  have g1 : jsonGet golden_arguments "peak_1" = Except.ok (Json.num 465) := rfl
  have g2 : jsonGet golden_arguments "peak_2" = Except.ok (Json.num 610) := rfl
  have g3 : jsonGet golden_arguments "formation_energy" = Except.ok (Json.num (-56/5)) := rfl
  simp only [g1, g2, g3, ok_bind, h]

/-- Witness for claim C7 with the constant Ceria identification function. -/
theorem execute_tool_golden_witness :
    execute_tool idfCeria "identify_material" golden_arguments =
      { success := true, result := some (Json.str "Ceria"), error := none } :=
  execute_tool_golden idfCeria (Json.str "Ceria") rfl

/-- Unfolding of `chat` to the loop call on the mutated history and the
seeded turn session. -/
theorem chat_eq (llm : ModelOracle) (jl : String → Except String Json)
    (idf : Json → Json → Json → Except String Json) (c : SimpleCrucible) (u : String) :
    chat llm jl idf c u =
      ({ c with history := (chatLoop llm jl idf max_iterations (c.history ++ [mkUserMsg u])
          (mkSystemMsg c.system_prompt :: (c.history ++ [mkUserMsg u]))).1 },
       (chatLoop llm jl idf max_iterations (c.history ++ [mkUserMsg u])
          (mkSystemMsg c.system_prompt :: (c.history ++ [mkUserMsg u]))).2) := rfl

/-- `max_iterations` exposed as a successor for loop-unfolding rewrites. -/
theorem max_iterations_succ : max_iterations = 2 + 1 := rfl

/-- A raised model invocation at the head of an iteration aborts the loop
with the history as it stood. -/
theorem chatLoop_model_error (llm : ModelOracle) (jl : String → Except String Json)
    (idf : Json → Json → Json → Except String Json) (n : Nat)
    (history messages : List Message) (e : String)
    (he : llm messages [TOOL_SCHEMA] = Except.error e) :
    chatLoop llm jl idf (n + 1) history messages = (history, Except.error e) := by
  simp only [chatLoop, he]

/-- Claim C9: reset always leaves the conversation history empty, for every
prior state. -/
theorem reset_clears_history (c : SimpleCrucible) : (reset c).history = [] := rfl

/-- Claim C1, counterexample: with a model response whose call request
carries an undecodable argument payload, the parse failure is raised out of
chat to the caller (an `Except.error` outcome), not surfaced to the model as
a failed envelope — `json.loads` runs in the orchestrator loop, outside the
`execute_tool` try block. -/
theorem chat_parse_error_raised :
    (chat llmOneCall jlReject idfCeria crucible0 "hi").2 =
      Except.error "Expecting value: line 1 column 1 (char 0)" := rfl

/-- Claim C1, amended: whenever the model response contains a call request
whose argument payload fails to decode, chat propagates the decode failure
to its caller as a raised error; the history keeps the user message and
gains no assistant message, and no failed envelope is produced for the
model. -/
theorem chat_parse_error_propagates (llm : ModelOracle) (jl : String → Except String Json)
    (idf : Json → Json → Json → Except String Json) (c : SimpleCrucible) (u : String)
    (msg : Message) (tool_call : ToolCall) (rest : List ToolCall) (e : String)
    (hm : llm (mkSystemMsg c.system_prompt :: (c.history ++ [mkUserMsg u])) [TOOL_SCHEMA] =
      Except.ok msg)
    (htc : msg.tool_calls = tool_call :: rest)
    (hjl : jl tool_call.function.arguments = Except.error e) :
    chat llm jl idf c u = ({ c with history := c.history ++ [mkUserMsg u] }, Except.error e) := by
  rw [chat_eq, max_iterations_succ]
  have hloop : chatLoop llm jl idf (2 + 1) (c.history ++ [mkUserMsg u])
      (mkSystemMsg c.system_prompt :: (c.history ++ [mkUserMsg u])) =
      (c.history ++ [mkUserMsg u], Except.error e) := by
    simp only [chatLoop, hm, htc, hjl]
  rw [hloop]

/-- Witness for the amended claim C1 at a concrete rejecting decoder. -/
theorem chat_parse_error_propagates_witness :
    chat llmOneCall jlReject idfCeria crucible0 "hi" =
      ({ crucible0 with history := crucible0.history ++ [mkUserMsg "hi"] },
        Except.error "Expecting value: line 1 column 1 (char 0)") :=
  chat_parse_error_propagates llmOneCall jlReject idfCeria crucible0 "hi"
    { role := Role.assistant, content := none, tool_calls := [tcall1], tool_call_id := none }
    tcall1 [] "Expecting value: line 1 column 1 (char 0)" rfl rfl rfl

/-- Claim C3: if the model answers every one of the 3 iterations with a call
request (whose payloads decode) and never with final text, chat returns the
fixed fallback apology and appends no assistant message — only the user
message of the turn remains appended. -/
theorem chat_exhaustion_fallback (llm : ModelOracle) (jl : String → Except String Json)
    (idf : Json → Json → Json → Except String Json) (c : SimpleCrucible) (u : String)
    (hllm : ∀ msgs, ∃ m, llm msgs [TOOL_SCHEMA] = Except.ok m ∧ m.tool_calls ≠ [])
    (hjl : ∀ s, ∃ v, jl s = Except.ok v) :
    chat llm jl idf c u =
      ({ c with history := c.history ++ [mkUserMsg u] }, Except.ok (some fallback_response)) := by
  rw [chat_eq, chatLoop_exhausts llm jl idf hllm hjl max_iterations]

/-- Witness for claim C3 with a model oracle that always requests a call. -/
theorem chat_exhaustion_fallback_witness :
    chat llmOneCall jlEmptyObj idfCeria crucible0 "hi" =
      ({ crucible0 with history := crucible0.history ++ [mkUserMsg "hi"] },
        Except.ok (some fallback_response)) :=
  chat_exhaustion_fallback llmOneCall jlEmptyObj idfCeria crucible0 "hi"
    (fun _ => ⟨{ role := Role.assistant, content := none, tool_calls := [tcall1], tool_call_id := none },
      rfl, List.cons_ne_nil tcall1 []⟩)
    (fun _ => ⟨Json.obj [], rfl⟩)

/-- Claim C6: when a model response carries several call requests, one loop
step dispatches only the head request to the Tool Adapter and appends to the
turn session only that request and its result envelope; the continuation is
one and the same expression for every tail of further requests, which are
thereby silently ignored. -/
theorem chatLoop_first_call_only (llm : ModelOracle) (jl : String → Except String Json)
    (idf : Json → Json → Json → Except String Json) (n : Nat)
    (history messages : List Message) (msg : Message) (tool_call : ToolCall)
    (rest : List ToolCall) (tool_args : Json)
    (hm : llm messages [TOOL_SCHEMA] = Except.ok msg)
    (htc : msg.tool_calls = tool_call :: rest)
    (hargs : jl tool_call.function.arguments = Except.ok tool_args) :
    chatLoop llm jl idf (n + 1) history messages =
      chatLoop llm jl idf n history
        (messages ++ [mkAssistantCall tool_call,
          mkToolMsg tool_call.id
            (envelopeDumps (execute_tool idf tool_call.function.name tool_args))]) := by
  simp only [chatLoop, hm, htc, hargs]

/-- Witness for claim C6: a response carrying two call requests steps the
loop exactly as the head request alone dictates. -/
theorem chatLoop_first_call_only_witness :
    chatLoop llmTwoCalls jlEmptyObj idfCeria 1 [] [] =
      chatLoop llmTwoCalls jlEmptyObj idfCeria 0 []
        ([] ++ [mkAssistantCall tcall1,
          mkToolMsg tcall1.id
            (envelopeDumps (execute_tool idfCeria tcall1.function.name (Json.obj [])))]) :=
  chatLoop_first_call_only llmTwoCalls jlEmptyObj idfCeria 0 [] []
    { role := Role.assistant, content := none, tool_calls := [tcall1, tcall2], tool_call_id := none }
    tcall1 [tcall2] (Json.obj []) rfl rfl rfl

/-- Claim C10: the user message is appended to history before the first
model invocation (the first invocation already receives it after the system
prompt), so a raised model invocation propagates out of chat while the
history keeps that user message with no matching assistant message — the
turn is not rolled back. -/
theorem chat_model_error_propagates (llm : ModelOracle) (jl : String → Except String Json)
    (idf : Json → Json → Json → Except String Json) (c : SimpleCrucible) (u : String) :
    (∀ e, llm (mkSystemMsg c.system_prompt :: (c.history ++ [mkUserMsg u])) [TOOL_SCHEMA] =
        Except.error e →
      chat llm jl idf c u = ({ c with history := c.history ++ [mkUserMsg u] }, Except.error e)) ∧
    (∀ e, (chat llm jl idf c u).2 = Except.error e →
      (chat llm jl idf c u).1 = { c with history := c.history ++ [mkUserMsg u] }) := by
  constructor
  · intro e he
    rw [chat_eq, max_iterations_succ, chatLoop_model_error llm jl idf 2 _ _ e he]
  · intro e he
    rw [chat_eq] at he ⊢
    rcases chatLoop_cases llm jl idf max_iterations (c.history ++ [mkUserMsg u])
        (mkSystemMsg c.system_prompt :: (c.history ++ [mkUserMsg u])) with ⟨e', hc⟩ | ⟨t, hc⟩ | hc
    · rw [hc]
    · rw [hc] at he
      simp at he
    · rw [hc] at he
      simp at he

/-- Witness for claim C10 with a model oracle whose invocation raises. -/
theorem chat_model_error_propagates_witness :
    chat llmDown jlEmptyObj idfCeria crucible0 "hi" =
      ({ crucible0 with history := crucible0.history ++ [mkUserMsg "hi"] },
        Except.error "model unreachable") ∧
    (chat llmDown jlEmptyObj idfCeria crucible0 "hi").1 =
      { crucible0 with history := crucible0.history ++ [mkUserMsg "hi"] } :=
  ⟨(chat_model_error_propagates llmDown jlEmptyObj idfCeria crucible0 "hi").1
      "model unreachable" rfl,
   (chat_model_error_propagates llmDown jlEmptyObj idfCeria crucible0 "hi").2
      "model unreachable" rfl⟩

/-- Claim C8: after every completed call to chat the history holds only
user- and assistant-role messages, and the turn persists at most the user
message and one plain assistant text message (empty tool_calls, no call
identifier) — so the system message and the transient assistant-call and
tool-result messages of the iteration loop are never persisted into the
history. -/
theorem chat_history_user_assistant_only (llm : ModelOracle)
    (jl : String → Except String Json)
    (idf : Json → Json → Json → Except String Json) (c : SimpleCrucible) (u : String)
    (h : ∀ m ∈ c.history, m.role = Role.user ∨ m.role = Role.assistant) :
    (∀ m ∈ (chat llm jl idf c u).1.history, m.role = Role.user ∨ m.role = Role.assistant) ∧
    ((chat llm jl idf c u).1.history = c.history ++ [mkUserMsg u] ∨
      ∃ t, (chat llm jl idf c u).1.history =
        c.history ++ [mkUserMsg u, mkAssistantText t]) := by
  have hshape : (chat llm jl idf c u).1.history = c.history ++ [mkUserMsg u] ∨
      ∃ t, (chat llm jl idf c u).1.history =
        c.history ++ [mkUserMsg u, mkAssistantText t] := by
    rw [chat_eq]
    rcases chatLoop_cases llm jl idf max_iterations (c.history ++ [mkUserMsg u])
        (mkSystemMsg c.system_prompt :: (c.history ++ [mkUserMsg u])) with ⟨e, hc⟩ | ⟨t, hc⟩ | hc
    · rw [hc]
      exact Or.inl rfl
    · rw [hc]
      exact Or.inr ⟨t, by simp⟩
    · rw [hc]
      exact Or.inl rfl
  refine ⟨?_, hshape⟩
  intro m hm
  rcases hshape with hs | ⟨t, hs⟩
  · rw [hs] at hm
    rcases List.mem_append.mp hm with hm | hm
    · exact h m hm
    · exact Or.inl ((List.mem_singleton.mp hm) ▸ rfl)
  · rw [hs] at hm
    rcases List.mem_append.mp hm with hm | hm
    · exact h m hm
    · simp only [List.mem_cons, List.mem_singleton, List.not_mem_nil, or_false] at hm
      rcases hm with rfl | rfl
      · exact Or.inl rfl
      · exact Or.inr rfl

/-- A seeded instance state for the persistence-invariant witness. -/
def crucibleSeeded : SimpleCrucible :=
  { system_prompt := "prompt",
    history := [mkUserMsg "earlier question", mkAssistantText (some "earlier answer")] }

/-- Witness for claim C8 on a seeded user/assistant history: the turn
persists either the user message alone or the user message plus one plain
assistant text message. -/
theorem chat_history_user_assistant_only_witness :
    (chat llmText jlEmptyObj idfCeria crucibleSeeded "hi").1.history =
        crucibleSeeded.history ++ [mkUserMsg "hi"] ∨
      ∃ t, (chat llmText jlEmptyObj idfCeria crucibleSeeded "hi").1.history =
        crucibleSeeded.history ++ [mkUserMsg "hi", mkAssistantText t] :=
  (chat_history_user_assistant_only llmText jlEmptyObj idfCeria crucibleSeeded "hi"
    (by decide)).2

/-- Resolved turns grow the history by exactly two messages each. -/
theorem runTurns_length_general (jl : String → Except String Json)
    (idf : Json → Json → Json → Except String Json) :
    ∀ (turns : List (ModelOracle × String)) (c : SimpleCrucible),
      AllResolved jl idf turns c →
      (runTurns jl idf turns c).history.length = c.history.length + 2 * turns.length := by
  intro turns
  induction turns with
  | nil =>
    intro c _
    simp [runTurns]
  | cons p rest ih =>
    obtain ⟨llm, u⟩ := p
    intro c h
    simp only [AllResolved] at h
    obtain ⟨⟨t, ht⟩, hrest⟩ := h
    simp only [runTurns]
    rw [ih _ hrest, ht]
    simp [List.length_append]
    omega

/-- Claim C2: from an empty history, K successfully-resolved turns leave the
history with exactly 2K messages; and any turn completing without a raise
either appends its user and assistant pair, or — on loop exhaustion, the
only other completion — appends the user message alone and yields the
fallback text. -/
theorem chat_history_length (jl : String → Except String Json)
    (idf : Json → Json → Json → Except String Json) :
    (∀ (turns : List (ModelOracle × String)) (sp : String),
        AllResolved jl idf turns { system_prompt := sp, history := [] } →
        (runTurns jl idf turns { system_prompt := sp, history := [] }).history.length =
          2 * turns.length) ∧
    (∀ (llm : ModelOracle) (c : SimpleCrucible) (u : String) (t : Option String),
        (chat llm jl idf c u).2 = Except.ok t →
        (chat llm jl idf c u).1.history = c.history ++ [mkUserMsg u, mkAssistantText t] ∨
        ((chat llm jl idf c u).1.history = c.history ++ [mkUserMsg u] ∧
          t = some fallback_response)) := by
  constructor
  · intro turns sp h
    have hg := runTurns_length_general jl idf turns { system_prompt := sp, history := [] } h
    simpa using hg
  · intro llm c u t ht
    rw [chat_eq] at ht ⊢
    rcases chatLoop_cases llm jl idf max_iterations (c.history ++ [mkUserMsg u])
        (mkSystemMsg c.system_prompt :: (c.history ++ [mkUserMsg u])) with ⟨e, hc⟩ | ⟨t', hc⟩ | hc
    · rw [hc] at ht
      simp at ht
    · rw [hc] at ht ⊢
      simp only at ht
      obtain rfl : t' = t := by simpa using ht
      left
      dsimp only
      simp
    · rw [hc] at ht ⊢
      simp only at ht
      obtain rfl : t = some fallback_response := by simpa using ht.symm
      right
      exact ⟨rfl, rfl⟩

/-- Witness for claim C2: one resolved turn yields a history of length two,
and an exhausted turn keeps only its user message. -/
theorem chat_history_length_witness :
    (runTurns jlEmptyObj idfCeria [(llmText, "hi")]
        { system_prompt := "sp", history := [] }).history.length =
      2 * [((llmText : ModelOracle), ("hi" : String))].length ∧
    ((chat llmOneCall jlEmptyObj idfCeria crucible0 "hi").1.history =
        crucible0.history ++ [mkUserMsg "hi", mkAssistantText (some fallback_response)] ∨
      ((chat llmOneCall jlEmptyObj idfCeria crucible0 "hi").1.history =
          crucible0.history ++ [mkUserMsg "hi"] ∧
        (some fallback_response : Option String) = some fallback_response)) :=
  ⟨(chat_history_length jlEmptyObj idfCeria).1 [(llmText, "hi")] "sp"
      ⟨⟨some "Final answer.", rfl⟩, trivial⟩,
   (chat_history_length jlEmptyObj idfCeria).2 llmOneCall crucible0 "hi"
      (some fallback_response) rfl⟩
